import Mathlib

/-
Verification of the parameter-enumeration logic of the tutorial notebook
doc/Tutorials/hegde_cc07.ipynb (repository ioam/imagen).

The notebook (a Python 2.7 kernel, per its metadata) builds lists and dicts
of stimulus-pattern objects by calling constructors of the external imagen
library with numeric parameters, and arranges them into grid layouts.  The
embedding below models every numeric literal the notebook passes, the
pattern objects as an inductive type carrying exactly the keyword arguments
of each constructor call, Python dicts as insertion-ordered association
lists with update-or-append insertion, and each comprehension as a list
builder.  Under Python 2.7, `zip` returns a list (so the inner loop of the
`hyp` comprehension re-iterates it for every orientation), and each of the
two `orientations` generator expressions is consumed exactly once, so plain
lists model both faithfully.
-/

namespace Hegde

/-- Numeric value `q + pc * pi`.  Every number the notebook passes is either
a decimal literal (a rational) or a rational multiple of `np.pi`; since `pi`
is irrational, two such values are equal iff their components are equal, so
structural equality on this representation is faithful to real-number
equality. -/
structure RVal where
  q : ℚ
  pc : ℚ
deriving DecidableEq, Repr

/-- A plain rational (decimal literal such as `0.35`). -/
def rat (x : ℚ) : RVal := ⟨x, 0⟩

/-- A rational multiple of `np.pi`, such as `np.pi/2` or `j*np.pi/4`. -/
def piTimes (c : ℚ) : RVal := ⟨0, c⟩

/-- Python dict insertion: updating an existing key keeps its position,
a new key is appended (Python preserves insertion order). -/
def dictInsert {K V : Type} [DecidableEq K] (d : List (K × V)) (k : K) (v : V) :
    List (K × V) :=
  if k ∈ d.map Prod.fst then
    d.map (fun p => if p.1 = k then (k, v) else p)
  else
    d ++ [(k, v)]

/-- A Python dict comprehension: fold the enumerated (key, value) pairs into
an insertion-ordered association list. -/
def dictOfPairs {K V : Type} [DecidableEq K] (l : List (K × V)) : List (K × V) :=
  l.foldl (fun d p => dictInsert d p.1 p.2) []

/-- One imagen pattern object, carrying the keyword arguments of the
constructor call that created it.  `Asterisk` takes its orientation as an
`Option` because one call (`Asterisk(parts=6, size=...)`) omits it and the
library default applies. -/
inductive Pattern where
  | SineGrating (phase frequency orientation : RVal)
  | HyperbolicGrating (size thickness orientation : RVal)
  | ConcentricRings (size thickness smoothing : RVal)
  | SpiralGrating (parts : ℤ) (turning smoothing : RVal)
  | RadialGrating (parts : ℤ)
  | Rectangle (orientation smoothing aspect size : RVal)
  | Asterisk (parts : ℤ) (size : RVal) (orientation : Option RVal)
  | Ring (smoothing thickness size : RVal)
  | Angle (size angle orientation : RVal)
  | ArcCentered (arc_length smoothing thickness size orientation : RVal)
deriving DecidableEq, Repr

/-- Source: `variants = 4`. -/
def variants : ℕ := 4

/-- Source: `frequencies = [2.0, 3.1, 4.2]`. -/
def frequencies : List ℚ := [2, 31/10, 21/5]

/-- Source: `orientations = (i*np.pi/variants for i in range(variants))`
(the first binding of `orientations`, consumed by the `sin` comprehension). -/
def orientationsSin (v : ℕ) : List RVal :=
  (List.range v).map (fun i => piTimes ((i : ℚ) / (v : ℚ)))

/-- The (key, value) pairs enumerated by the `sin` dict comprehension, in
iteration order: `o` outer, `f` inner. -/
def sinPairs (v : ℕ) (freqs : List ℚ) : List ((RVal × ℚ) × Pattern) :=
  (orientationsSin v).flatMap (fun o => freqs.map (fun f =>
    ((o, f), Pattern.SineGrating (piTimes (1/2)) (rat f) o)))

/-- Source: `sin = {(o, f): SineGrating(phase=np.pi/2, frequency=f,
orientation=o) for o in orientations for f in frequencies}`. -/
def sinD (v : ℕ) (freqs : List ℚ) : List ((RVal × ℚ) × Pattern) :=
  dictOfPairs (sinPairs v freqs)

def sin : List ((RVal × ℚ) × Pattern) := sinD variants frequencies

/-- Source: the two literal lists zipped by `size_thickness =
zip([0.18, 0.27, 0.36], [0.015, 0.03, 0.04])`. -/
def sizesHyp : List ℚ := [9/50, 27/100, 9/25]

def thicknessesHyp : List ℚ := [3/200, 3/100, 1/25]

def size_thickness : List (ℚ × ℚ) := sizesHyp.zip thicknessesHyp

/-- Source: `orientations = (i*np.pi/(2*variants) for i in range(variants))`
(the second binding of `orientations`, consumed by the `hyp` comprehension). -/
def orientationsHyp (v : ℕ) : List RVal :=
  (List.range v).map (fun i => piTimes ((i : ℚ) / (2 * (v : ℚ))))

/-- The (key, value) pairs enumerated by the `hyp` dict comprehension, in
iteration order: `o` outer, `(s, t)` inner (in Python 2.7 `zip` is a list,
so the inner loop runs in full for every `o`). -/
def hypPairs (v : ℕ) (st : List (ℚ × ℚ)) : List ((ℚ × ℚ × RVal) × Pattern) :=
  (orientationsHyp v).flatMap (fun o => st.map (fun p =>
    ((p.1, p.2, o), Pattern.HyperbolicGrating (rat p.1) (rat p.2) o)))

/-- Source: `hyp = {(s, t, o): HyperbolicGrating(size=s, thickness=t,
orientation=o) for o in orientations for (s, t) in size_thickness}`. -/
def hypD (v : ℕ) (st : List (ℚ × ℚ)) : List ((ℚ × ℚ × RVal) × Pattern) :=
  dictOfPairs (hypPairs v st)

def hyp : List ((ℚ × ℚ × RVal) × Pattern) := hypD variants size_thickness

/-- The three denominators of the divisions in the `pol1` comprehension:
`1+j*0.5`, `1+j*0.35`, `1+j*0.15`. -/
def concentricDenoms (j : ℕ) : ℚ × ℚ × ℚ :=
  (1 + (j : ℚ) * (1/2), 1 + (j : ℚ) * (35/100), 1 + (j : ℚ) * (15/100))

/-- Source: `pol1 = [ConcentricRings(size=0.35/(1+j*0.5),
thickness=0.05/(1+j*0.35), smoothing=0.05/(1+j*0.15)) for j in range(variants)]`. -/
def pol1D (v : ℕ) : List Pattern :=
  (List.range v).map (fun j =>
    Pattern.ConcentricRings
      (rat ((35/100) / (concentricDenoms j).1))
      (rat ((5/100) / (concentricDenoms j).2.1))
      (rat ((5/100) / (concentricDenoms j).2.2)))

/-- Source: `pol2 = [SpiralGrating(parts=(j+1)*2, turning=0.19+0.30*j,
smoothing=0.110+0.015*j) for j in range(variants)]`. -/
def pol2D (v : ℕ) : List Pattern :=
  (List.range v).map (fun j =>
    Pattern.SpiralGrating (((j : ℤ) + 1) * 2)
      (rat (19/100 + (30/100) * (j : ℚ)))
      (rat (110/1000 + (15/1000) * (j : ℚ))))

/-- Source: `pol3 = [SpiralGrating(parts=(j+1)*2, turning=0.09+0.13*j,
smoothing=0.050+0.006*j) for j in range(variants)]`. -/
def pol3D (v : ℕ) : List Pattern :=
  (List.range v).map (fun j =>
    Pattern.SpiralGrating (((j : ℤ) + 1) * 2)
      (rat (9/100 + (13/100) * (j : ℚ)))
      (rat (50/1000 + (6/1000) * (j : ℚ))))

/-- Source: `pol4 = [SpiralGrating(parts=(j+1)*2, turning=0.06+0.09*j,
smoothing=0.035+0.006*j) for j in range(variants)]`. -/
def pol4D (v : ℕ) : List Pattern :=
  (List.range v).map (fun j =>
    Pattern.SpiralGrating (((j : ℤ) + 1) * 2)
      (rat (6/100 + (9/100) * (j : ℚ)))
      (rat (35/1000 + (6/1000) * (j : ℚ))))

/-- Source: `pol5 = [SpiralGrating(parts=(j+1)*2, turning=0.05+0.07*j,
smoothing=0.030+0.003*j) for j in range(variants)]`. -/
def pol5D (v : ℕ) : List Pattern :=
  (List.range v).map (fun j =>
    Pattern.SpiralGrating (((j : ℤ) + 1) * 2)
      (rat (5/100 + (7/100) * (j : ℚ)))
      (rat (30/1000 + (3/1000) * (j : ℚ))))

/-- Source: `pol6 = [RadialGrating(parts=(j+1)*2) for j in range(variants)]`. -/
def pol6D (v : ℕ) : List Pattern :=
  (List.range v).map (fun j => Pattern.RadialGrating (((j : ℤ) + 1) * 2))

def pol1 : List Pattern := pol1D variants
def pol2 : List Pattern := pol2D variants
def pol3 : List Pattern := pol3D variants
def pol4 : List Pattern := pol4D variants
def pol5 : List Pattern := pol5D variants
def pol6 : List Pattern := pol6D variants

/-- Source: `polar = pol1 + pol2 + pol3 + pol4 + pol5 + pol6`. -/
def polar : List Pattern := pol1 ++ pol2 ++ pol3 ++ pol4 ++ pol5 ++ pol6

/-- Source: `bar1 = [Rectangle(orientation=j*np.pi/4, smoothing=0.015,
aspect_ratio=0.1, size=0.5) for j in range(variants)]`. -/
def bar1D (v : ℕ) : List Pattern :=
  (List.range v).map (fun j =>
    Pattern.Rectangle (piTimes ((j : ℚ) / 4)) (rat (15/1000)) (rat (1/10)) (rat (1/2)))

/-- Source: `bar2 = [Rectangle(orientation=j*np.pi/4, smoothing=0.015,
aspect_ratio=0.2, size=0.25) for j in range(variants)]`. -/
def bar2D (v : ℕ) : List Pattern :=
  (List.range v).map (fun j =>
    Pattern.Rectangle (piTimes ((j : ℚ) / 4)) (rat (15/1000)) (rat (1/5)) (rat (1/4)))

/-- Source: `bar = bar1 + bar2`. -/
def barD (v : ℕ) : List Pattern := bar1D v ++ bar2D v

def bar : List Pattern := barD variants

/-- Source: `star1 = [Asterisk(parts=3, size=0.50, orientation=j*np.pi/2)
for j in range(variants)]` and `star2` the same at size 0.25;
`tristar = star1 + star2`. -/
def tristarD (v : ℕ) : List Pattern :=
  ((List.range v).map (fun j =>
    Pattern.Asterisk 3 (rat (1/2)) (some (piTimes ((j : ℚ) / 2))))) ++
  ((List.range v).map (fun j =>
    Pattern.Asterisk 3 (rat (1/4)) (some (piTimes ((j : ℚ) / 2)))))

def tristar : List Pattern := tristarD variants

/-- Source: `star3 = [Asterisk(parts=4, size=0.50, orientation=j*np.pi/8)
for j in range(variants)]` and `star4` the same at size 0.25;
`cross = star3 + star4`. -/
def crossD (v : ℕ) : List Pattern :=
  ((List.range v).map (fun j =>
    Pattern.Asterisk 4 (rat (1/2)) (some (piTimes ((j : ℚ) / 8))))) ++
  ((List.range v).map (fun j =>
    Pattern.Asterisk 4 (rat (1/4)) (some (piTimes ((j : ℚ) / 8)))))

def cross : List Pattern := crossD variants

/-- Source: `star5` is two `Asterisk(parts=5, size=0.50, orientation=j*np.pi)`
for j in range(2), plus `Asterisk(parts=6, size=0.50)` (orientation omitted),
plus `Ring(smoothing=0.015, thickness=0.05, size=0.5)`. -/
def star5 : List Pattern :=
  ((List.range 2).map (fun j =>
    Pattern.Asterisk 5 (rat (1/2)) (some (piTimes (j : ℚ))))) ++
  [Pattern.Asterisk 6 (rat (1/2)) none] ++
  [Pattern.Ring (rat (15/1000)) (rat (1/20)) (rat (1/2))]

/-- Source: `star6`, the same four patterns at size 0.25. -/
def star6 : List Pattern :=
  ((List.range 2).map (fun j =>
    Pattern.Asterisk 5 (rat (1/4)) (some (piTimes (j : ℚ))))) ++
  [Pattern.Asterisk 6 (rat (1/4)) none] ++
  [Pattern.Ring (rat (15/1000)) (rat (1/20)) (rat (1/4))]

/-- Source: `star = star5 + star6`. -/
def star : List Pattern := star5 ++ star6

/-- The two Angle groups shared by acute/right/obtuse: size 0.50 then 0.25,
angle fixed, orientation `j*2*np.pi/variants`. -/
def angleSubclass (v : ℕ) (angle : RVal) : List Pattern :=
  ((List.range v).map (fun j =>
    Pattern.Angle (rat (1/2)) angle (piTimes ((j : ℚ) * 2 / (v : ℚ))))) ++
  ((List.range v).map (fun j =>
    Pattern.Angle (rat (1/4)) angle (piTimes ((j : ℚ) * 2 / (v : ℚ)))))

/-- Source: `ang1`/`ang2` with `angle=np.pi/8`; `acute = ang1 + ang2`. -/
def acuteD (v : ℕ) : List Pattern := angleSubclass v (piTimes (1/8))

def acute : List Pattern := acuteD variants

/-- Source: `ang3`/`ang4` with `angle=np.pi/4`; `right = ang3 + ang4`. -/
def rightD (v : ℕ) : List Pattern := angleSubclass v (piTimes (1/4))

def right : List Pattern := rightD variants

/-- Source: `ang5`/`ang6` with `angle=np.pi/3`; `obtuse = ang5 + ang6`. -/
def obtuseD (v : ℕ) : List Pattern := angleSubclass v (piTimes (1/3))

def obtuse : List Pattern := obtuseD variants

/-- The two ArcCentered groups shared by quarter/semi/threeqtrs: size 0.50
then 0.25, arc_length fixed, smoothing 0.015, thickness 0.05, orientation
`i*2*np.pi/variants`. -/
def arcSubclass (v : ℕ) (arcLen : RVal) : List Pattern :=
  ((List.range v).map (fun i =>
    Pattern.ArcCentered arcLen (rat (15/1000)) (rat (1/20)) (rat (1/2))
      (piTimes ((i : ℚ) * 2 / (v : ℚ))))) ++
  ((List.range v).map (fun i =>
    Pattern.ArcCentered arcLen (rat (15/1000)) (rat (1/20)) (rat (1/4))
      (piTimes ((i : ℚ) * 2 / (v : ℚ)))))

/-- Source: `arc1`/`arc2` with `arc_length=np.pi/2`; `quarter = arc1 + arc2`. -/
def quarterD (v : ℕ) : List Pattern := arcSubclass v (piTimes (1/2))

def quarter : List Pattern := quarterD variants

/-- Source: `arc3`/`arc4` with `arc_length=np.pi`; `semi = arc3 + arc4`. -/
def semiD (v : ℕ) : List Pattern := arcSubclass v (piTimes 1)

def semi : List Pattern := semiD variants

/-- Source: `arc5`/`arc6` with `arc_length=3*np.pi/2`;
`threeqtrs = arc5 + arc6`. -/
def threeqtrsD (v : ℕ) : List Pattern := arcSubclass v (piTimes (3/2))

def threeqtrs : List Pattern := threeqtrsD variants

/-- Source: `concentric_like = pol1 + pol2[1:] + pol3[2:] + pol4[2:] + pol5[3:]`. -/
def concentric_like : List Pattern :=
  pol1 ++ pol2.drop 1 ++ pol3.drop 2 ++ pol4.drop 2 ++ pol5.drop 3

/-- Source: `radial_like = pol2[:1] + pol3[:2] + pol4[:2] + pol5[:3] + pol6`. -/
def radial_like : List Pattern :=
  pol2.take 1 ++ pol3.take 2 ++ pol4.take 2 ++ pol5.take 3 ++ pol6

/-- Source: `grating_stimuli_subclasses = [list(sin.values()),
list(hyp.values()), concentric_like, radial_like]` (dict `.values()` in
insertion order). -/
def grating_stimuli_subclasses : List (List Pattern) :=
  [sin.map Prod.snd, hyp.map Prod.snd, concentric_like, radial_like]

/-- Source: `grating_stimuli_subclasses_labels =
['sinusoidal''hyperbolic','concentric-like','radial-like']`.  The two
adjacent string literals concatenate (Python juxtaposition), yielding a
single three-element list. -/
def grating_stimuli_subclasses_labels : List String :=
  ["sinusoidalhyperbolic", "concentric-like", "radial-like"]

/-- Source: `contour_stimuli_subclasses = [bar, tristar, cross, star, acute,
right, obtuse, quarter, semi, threeqtrs]`. -/
def contour_stimuli_subclasses : List (List Pattern) :=
  [bar, tristar, cross, star, acute, right, obtuse, quarter, semi, threeqtrs]

/-- Source: `contour_stimuli_subclasses_labels = ['bar','tri-star','cross',
'star/circle','acute angle','right angle','obtuse angle','quarter arc',
'semi-circle','3/4 arc']`. -/
def contour_stimuli_subclasses_labels : List String :=
  ["bar", "tri-star", "cross", "star/circle", "acute angle",
   "right angle", "obtuse angle", "quarter arc", "semi-circle", "3/4 arc"]

/-- Source: `all_stimuli_subclasses = grating_stimuli_subclasses +
contour_stimuli_subclasses`. -/
def all_stimuli_subclasses : List (List Pattern) :=
  grating_stimuli_subclasses ++ contour_stimuli_subclasses

/-- Source: `all_stimuli_subclasses_labels = grating_stimuli_subclasses_labels
+ contour_stimuli_subclasses_labels`. -/
def all_stimuli_subclasses_labels : List String :=
  grating_stimuli_subclasses_labels ++ contour_stimuli_subclasses_labels

/-- The `size` keyword argument of a pattern, for the constructors that are
given one in this notebook; `none` for the others. -/
def sizeParam : Pattern → Option RVal
  | .HyperbolicGrating s _ _ => some s
  | .ConcentricRings s _ _ => some s
  | .Rectangle _ _ _ s => some s
  | .Asterisk _ s _ => some s
  | .Ring _ _ s => some s
  | .Angle s _ _ => some s
  | .ArcCentered _ _ _ s _ => some s
  | _ => none

/-- A Python value as passed to a constructor keyword argument.  The notebook
only ever passes ints and floats, but strings and None exist in the language,
so being numeric is a real property of each argument. -/
inductive PyVal where
  | int (n : ℤ)
  | float (r : RVal)
  | str (s : String)
  | noneVal
deriving DecidableEq, Repr

/-- Whether a Python value is numeric (an int or a float). -/
def PyVal.isNumeric : PyVal → Bool
  | .int _ => true
  | .float _ => true
  | _ => false

/-- The keyword arguments of the constructor call that built a pattern, as
(name, value) pairs in the order they appear in the notebook's call. -/
def Pattern.kwargs : Pattern → List (String × PyVal)
  | .SineGrating ph fr o =>
      [("phase", .float ph), ("frequency", .float fr), ("orientation", .float o)]
  | .HyperbolicGrating s t o =>
      [("size", .float s), ("thickness", .float t), ("orientation", .float o)]
  | .ConcentricRings s t sm =>
      [("size", .float s), ("thickness", .float t), ("smoothing", .float sm)]
  | .SpiralGrating p t sm =>
      [("parts", .int p), ("turning", .float t), ("smoothing", .float sm)]
  | .RadialGrating p => [("parts", .int p)]
  | .Rectangle o sm a s =>
      [("orientation", .float o), ("smoothing", .float sm),
       ("aspect_ratio", .float a), ("size", .float s)]
  | .Asterisk p s o =>
      [("parts", .int p), ("size", .float s)] ++
      (match o with
       | some ov => [("orientation", .float ov)]
       | none => [])
  | .Ring sm t s =>
      [("smoothing", .float sm), ("thickness", .float t), ("size", .float s)]
  | .Angle s a o =>
      [("size", .float s), ("angle", .float a), ("orientation", .float o)]
  | .ArcCentered al sm t s o =>
      [("arc_length", .float al), ("smoothing", .float sm),
       ("thickness", .float t), ("size", .float s), ("orientation", .float o)]

/-- Every keyword argument of every constructor call the notebook makes
(every constructed pattern ends up in one of the subclass lists of
`all_stimuli_subclasses`). -/
def allKwargs : List (String × PyVal) :=
  (all_stimuli_subclasses.flatten.map Pattern.kwargs).flatten

/-- One grid-layout display produced by the notebook: the number of panes
put into the layout and the argument of the `.cols(...)` call on it. -/
structure Display where
  panes : ℕ
  cols : ℕ
deriving DecidableEq, Repr

/-- The displays of the notebook, in cell order: `sinusoidal.cols(6)`,
`hyperbolic.cols(6)`, the polar layout and every contour layout at
`.cols(8)`, and the combined all-stimuli layout
`hv.Layout([p[:] for c in all_stimuli_subclasses for p in c]).cols(8)`
from the closing cell. -/
def displays : List (String × Display) :=
  [("sinusoidal", ⟨sin.length, 6⟩),
   ("hyperbolic", ⟨hyp.length, 6⟩),
   ("polar", ⟨polar.length, 8⟩),
   ("bar", ⟨bar.length, 8⟩),
   ("tristar", ⟨tristar.length, 8⟩),
   ("cross", ⟨cross.length, 8⟩),
   ("star", ⟨star.length, 8⟩),
   ("acute", ⟨acute.length, 8⟩),
   ("right", ⟨right.length, 8⟩),
   ("obtuse", ⟨obtuse.length, 8⟩),
   ("quarter", ⟨quarter.length, 8⟩),
   ("semi", ⟨semi.length, 8⟩),
   ("threeqtrs", ⟨threeqtrs.length, 8⟩),
   ("all_stimuli", ⟨(all_stimuli_subclasses.map List.length).sum, 8⟩)]

/-- The whole enumeration as a function of the notebook's initial bindings:
`variants` and the literal frequency, size and thickness lists.  Replays the
cells in order and returns the fourteen subclass lists of
`all_stimuli_subclasses`. -/
def buildAll (v : ℕ) (freqs szs thks : List ℚ) : List (List Pattern) :=
  [(sinD v freqs).map Prod.snd,
   (hypD v (szs.zip thks)).map Prod.snd,
   pol1D v ++ (pol2D v).drop 1 ++ (pol3D v).drop 2 ++ (pol4D v).drop 2 ++
     (pol5D v).drop 3,
   (pol2D v).take 1 ++ (pol3D v).take 2 ++ (pol4D v).take 2 ++
     (pol5D v).take 3 ++ pol6D v] ++
  [barD v, tristarD v, crossD v, star, acuteD v, rightD v, obtuseD v,
   quarterD v, semiD v, threeqtrsD v]

section

/- Batteries marks the arithmetic of `Rat` `@[irreducible]`; the concrete
evaluations below need it to unfold. -/
attribute [local semireducible] Rat.mul Rat.inv Rat.add Rat.sub

set_option maxRecDepth 4000

/-- C1: the hyperbolic-grating enumeration produces one entry per combination
of the 4 orientations (i*pi/8 for i in 0..3) and the 3 (size, thickness)
pairs ((0.18, 0.015), (0.27, 0.03), (0.36, 0.04)): the dict `hyp` has
exactly 12 entries, and every combination occurs among its keys. -/
theorem hyp_twelve_entries :
    hyp.length = 12 ∧
    orientationsHyp variants =
      [piTimes 0, piTimes (1/8), piTimes (2/8), piTimes (3/8)] ∧
    size_thickness = [(9/50, 3/200), (27/100, 3/100), (9/25, 1/25)] ∧
    ∀ o ∈ orientationsHyp variants, ∀ st ∈ size_thickness,
      (st.1, st.2, o) ∈ hyp.map Prod.fst := by decide

/-- Witness for C1 at the first orientation and the first (size, thickness)
pair. -/
theorem hyp_twelve_entries_witness :
    ((9 : ℚ)/50, (3 : ℚ)/200, piTimes 0) ∈ hyp.map Prod.fst :=
  hyp_twelve_entries.2.2.2 (piTimes 0) (by decide)
    ((9 : ℚ)/50, (3 : ℚ)/200) (by decide)

/-- C2: `all_stimuli_subclasses_labels` has 13 elements against the 14
subclass lists of `all_stimuli_subclasses`, because the adjacent string
literals in the grating-labels list concatenate into the single label
'sinusoidalhyperbolic', leaving 3 grating labels for 4 grating subclasses. -/
theorem labels_one_short :
    grating_stimuli_subclasses_labels =
      ["sinusoidalhyperbolic", "concentric-like", "radial-like"] ∧
    grating_stimuli_subclasses_labels.length = 3 ∧
    grating_stimuli_subclasses.length = 4 ∧
    all_stimuli_subclasses_labels.length = 13 ∧
    all_stimuli_subclasses.length = 14 := by decide

/-- C3: the sinusoidal-grating enumeration produces one entry per combination
of the 4 orientations (i*pi/4 for i in 0..3) and the 3 frequencies
[2.0, 3.1, 4.2]: the dict `sin` has exactly 12 entries, and every
(orientation, frequency) combination occurs among its keys. -/
theorem sin_twelve_entries :
    sin.length = 12 ∧
    orientationsSin variants =
      [piTimes 0, piTimes (1/4), piTimes (2/4), piTimes (3/4)] ∧
    frequencies = [2, 31/10, 21/5] ∧
    ∀ o ∈ orientationsSin variants, ∀ f ∈ frequencies,
      (o, f) ∈ sin.map Prod.fst := by decide

/-- Witness for C3 at the first orientation and the first frequency. -/
theorem sin_twelve_entries_witness :
    (piTimes 0, (2 : ℚ)) ∈ sin.map Prod.fst :=
  sin_twelve_entries.2.2.2 (piTimes 0) (by decide) 2 (by decide)

/-- C4: `concentric_like` and `radial_like` partition the 24-element list
`polar`: each has 12 elements, they are disjoint, and together they are a
permutation of `polar` (so every element of `polar` appears in exactly one
of them). -/
theorem polar_partition :
    concentric_like.length = 12 ∧
    radial_like.length = 12 ∧
    polar.length = 24 ∧
    (concentric_like ++ radial_like).Perm polar ∧
    ∀ p ∈ concentric_like, p ∉ radial_like := by decide

/-- Witness for C4 at the first element of `concentric_like` (the j = 0
ConcentricRings, whose three divisions evaluate to 0.35, 0.05, 0.05). -/
theorem polar_partition_witness :
    Pattern.ConcentricRings (rat (35/100)) (rat (5/100)) (rat (5/100)) ∉
      radial_like :=
  polar_partition.2.2.2.2 _ (by decide)

/-- C5: every one of the 10 contour stimulus subclasses contains exactly
2*variants = 8 patterns: a first group of 4 whose size argument is 0.50
followed by a second group of 4 whose size argument is 0.25. -/
theorem contour_subclass_sizes :
    2 * variants = 8 ∧
    contour_stimuli_subclasses.length = 10 ∧
    ∀ l ∈ contour_stimuli_subclasses,
      l.length = 2 * variants ∧
      (l.take 4).length = 4 ∧
      (l.drop 4).length = 4 ∧
      (∀ p ∈ l.take 4, sizeParam p = some (rat (1/2))) ∧
      (∀ p ∈ l.drop 4, sizeParam p = some (rat (1/4))) := by decide

/-- Witness for C5 at the `bar` subclass. -/
theorem contour_subclass_sizes_witness : bar.length = 2 * variants :=
  (contour_subclass_sizes.2.2 bar (by decide)).1

/-- C6: `all_stimuli_subclasses` is the concatenation of the 4 grating
subclasses (sinusoidal, hyperbolic, concentric-like, radial-like) followed
by the 10 contour subclasses, 14 subclass lists in that order. -/
theorem all_subclasses_structure :
    all_stimuli_subclasses =
      grating_stimuli_subclasses ++ contour_stimuli_subclasses ∧
    grating_stimuli_subclasses =
      [sin.map Prod.snd, hyp.map Prod.snd, concentric_like, radial_like] ∧
    contour_stimuli_subclasses =
      [bar, tristar, cross, star, acute, right, obtuse, quarter, semi,
       threeqtrs] ∧
    grating_stimuli_subclasses.length = 4 ∧
    contour_stimuli_subclasses.length = 10 ∧
    all_stimuli_subclasses.length = 14 := by decide

/-- C7: every division in the ConcentricRings comprehension has a nonzero
denominator for every j in range(variants): the three denominators
1+j*0.5, 1+j*0.35 and 1+j*0.15 are all nonzero there, so the notebook's own
parameter computations cannot divide by zero. -/
theorem concentric_denominators_nonzero :
    ∀ j ∈ List.range variants,
      (concentricDenoms j).1 ≠ 0 ∧
      (concentricDenoms j).2.1 ≠ 0 ∧
      (concentricDenoms j).2.2 ≠ 0 := by decide

/-- Witness for C7 at j = 0. -/
theorem concentric_denominators_nonzero_witness :
    (concentricDenoms 0).1 ≠ 0 :=
  (concentric_denominators_nonzero 0 (by decide)).1

/-- C8: among the 14 grid-layout displays of the notebook, the sinusoidal
and hyperbolic ones use 6 columns and every other one (polar, the ten
contour subclasses, and the combined all-stimuli layout) uses 8 columns. -/
theorem layout_columns :
    displays.length = 14 ∧
    ∀ d ∈ displays,
      d.2.cols =
        if d.1 = "sinusoidal" ∨ d.1 = "hyperbolic" then 6 else 8 := by decide

/-- Witness for C8 at the sinusoidal display. -/
theorem layout_columns_witness :
    (("sinusoidal", Display.mk sin.length 6) : String × Display).2.cols =
      if (("sinusoidal", Display.mk sin.length 6) : String × Display).1 =
          "sinusoidal" ∨
        (("sinusoidal", Display.mk sin.length 6) : String × Display).1 =
          "hyperbolic" then 6 else 8 :=
  layout_columns.2 _ (by decide)

/-- C9: every keyword argument of every stimulus-constructor call the
notebook makes is a numeric (int or float) value. -/
theorem kwargs_numeric : ∀ a ∈ allKwargs, a.2.isNumeric = true := by decide

/-- Witness for C9 at the first argument of the first SineGrating call. -/
theorem kwargs_numeric_witness :
    (("phase", PyVal.float (piTimes (1/2))) : String × PyVal).2.isNumeric =
      true :=
  kwargs_numeric ("phase", PyVal.float (piTimes (1/2))) (by decide)

/-- C10: the enumeration is deterministic: as a function `buildAll` of the
initial bindings (`variants` and the literal frequency, size and thickness
lists) it produces `all_stimuli_subclasses` at the notebook's bindings, and
two runs from equal initial bindings produce exactly the same subclass
lists, with no dependence on any other input or shared mutable state. -/
theorem enumeration_deterministic :
    buildAll variants frequencies sizesHyp thicknessesHyp =
      all_stimuli_subclasses ∧
    ∀ v₁ v₂ : ℕ, ∀ f₁ f₂ s₁ s₂ t₁ t₂ : List ℚ,
      v₁ = v₂ → f₁ = f₂ → s₁ = s₂ → t₁ = t₂ →
      buildAll v₁ f₁ s₁ t₁ = buildAll v₂ f₂ s₂ t₂ := by
  refine ⟨rfl, ?_⟩
  intro v₁ v₂ f₁ f₂ s₁ s₂ t₁ t₂ hv hf hs ht
  rw [hv, hf, hs, ht]

/-- Witness for C10: two runs at the notebook's own bindings agree. -/
theorem enumeration_deterministic_witness :
    buildAll 4 [2, 31/10, 21/5] [9/50, 27/100, 9/25] [3/200, 3/100, 1/25] =
      buildAll 4 [2, 31/10, 21/5] [9/50, 27/100, 9/25] [3/200, 3/100, 1/25] :=
  enumeration_deterministic.2 4 4 _ _ _ _ _ _ rfl rfl rfl rfl

end

end Hegde
